import Mathlib

/-!
Shallow embedding of `src/bedrock_invoke.py` (the single source file of the
repository): a diagnostic script that resolves an inference-profile ARN from
environment variables, optionally verifies the profile, then tries the
`converse` API and falls back to `invoke_model`, printing diagnostics when
both fail.

The four remote collaborators (`get_inference_profile`, `converse`,
`invoke_model`, `get_caller_identity`) are modelled as stubbed results held
in a `World` record, exactly as the testable properties of the spec stub them.
Every observable action of the program — each `print`/`eprint` call and each
remote call — is recorded as an `Event` in a trace, and the process outcome
is an exit code or an unhandled-exception crash.
-/

set_option autoImplicit false
set_option maxRecDepth 8192

namespace Bedrock

/-- The two output streams: `print` writes to stdout, `eprint` to stderr. -/
inductive OutStream where
  | stdout
  | stderr
  deriving DecidableEq, Repr

/-- One observable action of the program: a line printed to one of the two
streams (the argument of one `print`/`eprint` call), or one invocation of a
remote collaborator. -/
inductive Event where
  | print (s : OutStream) (msg : String)
  | callGetInferenceProfile
  | callConverse
  | callInvokeModel
  | callGetCallerIdentity
  deriving DecidableEq, Repr

/-- A Python exception as the script distinguishes them:
`botocore.exceptions.ClientError` (a remote rejection) versus any other
exception. The string is what `str(e)` / `repr(e)` yields at the print
sites that surface the exception. -/
inductive PyError where
  | clientError (msg : String)
  | otherError (msg : String)
  deriving DecidableEq, Repr

/-- The string printed for an exception at the handler print sites. -/
def PyError.text : PyError → String
  | .clientError m => m
  | .otherError m => m

/-- Python/JSON values as they flow through the response processing of the
script (dicts, lists, strings, numbers, booleans, None). -/
inductive JValue where
  | str (s : String)
  | num (n : Int)
  | bool (b : Bool)
  | null
  | list (xs : List JValue)
  | dict (kvs : List (String × JValue))

/-- First value bound to a key in the entry list of a dict (Python dicts
have unique keys, so first-match lookup is exact). -/
def lookup (kvs : List (String × JValue)) (k : String) : Option JValue :=
  match kvs with
  | [] => none
  | (k', v) :: rest => if k' = k then some v else lookup rest k

/-- Python truthiness of a value, as used by `if not output:`. -/
def pyTruthy : JValue → Bool
  | .str s => !s.isEmpty
  | .num n => n != 0
  | .bool b => b
  | .null => false
  | .list xs => !xs.isEmpty
  | .dict kvs => !kvs.isEmpty

/-- `v.get(k, d)`: dict lookup with default; on a non-dict it raises
`AttributeError` (a non-ClientError exception). -/
def pyDictGetD (v : JValue) (k : String) (d : JValue) : Except PyError JValue :=
  match v with
  | .dict kvs => .ok ((lookup kvs k).getD d)
  | _ => .error (.otherError ("AttributeError: object has no attribute " ++ k))

/-- `for p in v`: iteration. Lists yield their elements, strings their
characters (as one-character strings), dicts their keys; other values raise
`TypeError`. -/
def pyIter : JValue → Except PyError (List JValue)
  | .list xs => .ok xs
  | .str s => .ok (s.data.map (fun c => .str (String.mk [c])))
  | .dict kvs => .ok (kvs.map (fun kv => .str kv.1))
  | _ => .error (.otherError "TypeError: object is not iterable")

/-- `k in v` for a string `k`: key membership for dicts, substring test for
strings, element membership for lists; other values raise `TypeError`. -/
def pyContains (k : String) (v : JValue) : Except PyError Bool :=
  match v with
  | .dict kvs => .ok (lookup kvs k).isSome
  | .str s => .ok ((s.splitOn k).length != 1)
  | .list xs => .ok (xs.any (fun x => match x with | .str s => s = k | _ => false))
  | _ => .error (.otherError "TypeError: argument of type is not iterable")

/-- `v[k]` for a string key `k`: dict subscription (`KeyError` when the key
is absent); on any non-dict it raises `TypeError`. -/
def pySubscript (v : JValue) (k : String) : Except PyError JValue :=
  match v with
  | .dict kvs =>
    match lookup kvs k with
    | some x => .ok x
    | none => .error (.otherError ("KeyError: " ++ k))
  | _ => .error (.otherError "TypeError: value is not subscriptable")

/-- All elements of the list are Python strings; `None` otherwise.
Used by the embedding of `"\n".join(texts)`. -/
def allStrs : List JValue → Option (List String)
  | [] => some []
  | .str s :: rest => (allStrs rest).map (fun ss => s :: ss)
  | _ :: _ => none

/-- `"\n".join(texts)`: joins when every element is a string, raises
`TypeError` otherwise. -/
def pyJoin (vs : List JValue) : Except PyError String :=
  match allStrs vs with
  | some ss => .ok (String.intercalate "\n" ss)
  | none => .error (.otherError "TypeError: sequence item expected str instance")

mutual

/-- Serialization abstracting the stdlib collaborator
`json.dumps(v, indent=2, default=str)`: a fixed, total, deterministic
rendering of a `JValue`. The script never inspects the rendered text, so
only determinism and totality matter; the exact layout is not modelled. -/
def jsonDumps : JValue → String
  | .str s => "\x22" ++ s ++ "\x22"
  | .num n => toString n
  | .bool b => if b then "true" else "false"
  | .null => "null"
  | .list xs => "[" ++ String.intercalate ", " (jsonDumpsList xs) ++ "]"
  | .dict kvs => "\x7b" ++ String.intercalate ", " (jsonDumpsEntries kvs) ++ "\x7d"

/-- Renders each element of a JSON array. -/
def jsonDumpsList : List JValue → List String
  | [] => []
  | x :: xs => jsonDumps x :: jsonDumpsList xs

/-- Renders each `key: value` entry of a JSON object. -/
def jsonDumpsEntries : List (String × JValue) → List String
  | [] => []
  | (k, v) :: rest => ("\x22" ++ k ++ "\x22: " ++ jsonDumps v) :: jsonDumpsEntries rest

end

/-- A UTF-8 continuation byte. -/
def isCont (b : Nat) : Bool := 0x80 ≤ b && b < 0xC0

/-- `bytes.decode("utf-8")`: strict UTF-8 decoding of a byte list,
`none` on invalid input (where CPython raises `UnicodeDecodeError`).
Rejects overlong encodings, surrogates and out-of-range code points. -/
def utf8Decode : List Nat → Option (List Char)
  | [] => some []
  | b :: rest =>
    if b < 0x80 then
      (utf8Decode rest).map (fun cs => Char.ofNat b :: cs)
    else if 0xC2 ≤ b && b ≤ 0xDF then
      match rest with
      | b1 :: rest' =>
        if isCont b1 then
          (utf8Decode rest').map (fun cs => Char.ofNat ((b - 0xC0) * 64 + (b1 - 0x80)) :: cs)
        else none
      | [] => none
    else if 0xE0 ≤ b && b ≤ 0xEF then
      match rest with
      | b1 :: b2 :: rest' =>
        if isCont b1 && isCont b2 then
          let c := (b - 0xE0) * 4096 + (b1 - 0x80) * 64 + (b2 - 0x80)
          if 0x800 ≤ c && !(0xD800 ≤ c && c ≤ 0xDFFF) then
            (utf8Decode rest').map (fun cs => Char.ofNat c :: cs)
          else none
        else none
      | _ => none
    else if 0xF0 ≤ b && b ≤ 0xF4 then
      match rest with
      | b1 :: b2 :: b3 :: rest' =>
        if isCont b1 && isCont b2 && isCont b3 then
          let c := (b - 0xF0) * 262144 + (b1 - 0x80) * 4096 + (b2 - 0x80) * 64 + (b3 - 0x80)
          if 0x10000 ≤ c && c ≤ 0x10FFFF then
            (utf8Decode rest').map (fun cs => Char.ofNat c :: cs)
          else none
        else none
      | _ => none
    else none

/-- `bytes.decode("utf-8")` producing a `String`. -/
def utf8DecodeStr (bs : List Nat) : Option String :=
  (utf8Decode bs).map String.mk

/-- The value found under the `"body"` key of the `invoke_model` response:
a stream-like object with a `read()` method yielding bytes, materialized
`bytes`/`bytearray`, a `str`, `None`, or some other object (carrying the
text `str(data)` would yield). -/
inductive BodyVal where
  | stream (bs : List Nat)
  | bytes (bs : List Nat)
  | pystr (s : String)
  | pynone
  | otherVal (strRepr : String)

/-- The stubbed environment and remote collaborators of one run: the three
environment variables the script reads, the ambient region, whether the SDK
exposes `get_inference_profile`, and the outcome each remote call would
return (`Except.error` meaning the call raises). The payload of
`invokeResult` is the `"body"` value of the response (`none` when the key
is absent). -/
structure World where
  envBedrockArn : Option String
  envInferenceArn : Option String
  envPrompt : Option String
  ambientRegion : Option String
  hasGetInferenceProfile : Bool
  profileResult : Except PyError JValue
  converseResult : Except PyError JValue
  invokeResult : Except PyError (Option BodyVal)
  stsResult : Except PyError JValue

/-- Python `a or b` over `os.getenv` results: the first operand wins when it
is truthy (set and non-empty), otherwise the second is returned verbatim. -/
def pyOr (a b : Option String) : Option String :=
  match a with
  | some s => if s.isEmpty then b else some s
  | none => b

/-- The resolved target identifier,
`os.getenv("BEDROCK_INFERENCE_PROFILE_ARN") or os.getenv("INFERENCE_PROFILE_ARN")`. -/
def resolveArn (w : World) : Option String :=
  pyOr w.envBedrockArn w.envInferenceArn

/-- The resolved prompt, `os.getenv("PROMPT", "Say hello in one short sentence.")`. -/
def resolvePrompt (w : World) : String :=
  w.envPrompt.getD "Say hello in one short sentence."

/-- The process outcome: `sys.exit`/normal return with an exit code, or an
unhandled exception propagating out of `main`. -/
inductive Outcome where
  | exited (code : Nat)
  | crashed (e : PyError)
  deriving Repr

/-- The `messages` argument the script passes to `converse` (line 50).
The stubbed collaborators ignore request payloads; kept for fidelity. -/
def converseMessages (prompt : String) : JValue :=
  .list [.dict [("role", .str "user"), ("content", .list [.dict [("text", .str prompt)]])]]

/-- The Anthropic-style request body built for `invoke_model` (lines 77-83).
The stubbed collaborators ignore request payloads; kept for fidelity. -/
def invokeBody (prompt : String) : JValue :=
  .dict
    [("anthropic_version", .str "bedrock-2023-05-31"),
     ("max_tokens", .num 128),
     ("messages",
      .list [.dict [("role", .str "user"),
                    ("content", .list [.dict [("type", .str "text"), ("text", .str prompt)]])]])]

/-- The optional profile-verification block (lines 32-43). The surrounding
`try` catches only `botocore.exceptions.ClientError`; the second component
is `some e` when a non-ClientError exception escapes the block uncaught. -/
def profilePhase (w : World) : List Event × Option PyError :=
  if w.hasGetInferenceProfile then
    match w.profileResult with
    | .ok prof =>
      match pyDictGetD prof "inferenceProfile" prof with
      | .ok v =>
        ([.callGetInferenceProfile,
          .print .stdout "Verified inference profile:",
          .print .stdout (jsonDumps v)], none)
      | .error e =>
        ([.callGetInferenceProfile, .print .stdout "Verified inference profile:"], some e)
    | .error (.clientError m) =>
      ([.callGetInferenceProfile,
        .print .stderr "WARN: Could not describe the inference profile (may be a permissions or SDK-version issue):",
        .print .stderr m], none)
    | .error (.otherError m) =>
      ([.callGetInferenceProfile], some (.otherError m))
  else
    ([.print .stdout "SDK does not expose get_inference_profile; skipping profile pre-check."], none)

/-- The text-extraction loop over the content parts (lines 59-62):
for each part, `if "text" in p: texts.append(p["text"])`, with the
exceptions those operations can raise. -/
def collectTexts : List JValue → Except PyError (List JValue)
  | [] => .ok []
  | p :: ps => do
    let b ← pyContains "text" p
    if b then
      let v ← pySubscript p "text"
      let rest ← collectTexts ps
      pure (v :: rest)
    else
      collectTexts ps

/-- Processing of a successful `converse` response (lines 53-65): the
prints it performs and, when a step raises, the exception (always a
non-ClientError), with the prints that had already happened kept. -/
def processConverse (resp : JValue) : List Event × Option PyError :=
  match pyDictGetD resp "output" (.dict []) with
  | .error e => ([], some e)
  | .ok output =>
    if !pyTruthy output then
      ([.print .stdout (jsonDumps resp)], none)
    else
      match pyDictGetD output "message" (.dict []) with
      | .error e => ([], some e)
      | .ok msg =>
        match pyDictGetD msg "content" (.list []) with
        | .error e => ([], some e)
        | .ok parts =>
          match pyIter parts with
          | .error e => ([], some e)
          | .ok ps =>
            match collectTexts ps with
            | .error e => ([], some e)
            | .ok texts =>
              if texts.isEmpty then
                ([.print .stdout "Converse response:", .print .stdout (jsonDumps resp)], none)
              else
                match pyJoin texts with
                | .error e => ([.print .stdout "Converse response:"], some e)
                | .ok s => ([.print .stdout "Converse response:", .print .stdout s], none)

/-- The two exception handlers of the converse attempt (lines 66-71):
`ClientError` prints "failed:" with `str(e)`, anything else prints
"error:" with `repr(e)`. -/
def converseHandler : PyError → List Event
  | .clientError m => [.print .stderr "Converse attempt failed:", .print .stderr m]
  | .otherError m => [.print .stderr "Converse attempt error:", .print .stderr m]

/-- The stdout banner of line 47. -/
def converseBanner : Event :=
  .print .stdout "\nAttempting bedrock-runtime.converse via inference profile ARN ..."

/-- The primary `converse` attempt (lines 45-71): its events and whether it
returned success (the `return` at line 65 was reached). -/
def conversePhase (w : World) : List Event × Bool :=
  match w.converseResult with
  | .error e => ([converseBanner, .callConverse] ++ converseHandler e, false)
  | .ok resp =>
    match processConverse resp with
    | (t, none) => ([converseBanner, .callConverse] ++ t, true)
    | (t, some e) => ([converseBanner, .callConverse] ++ t ++ converseHandler e, false)

/-- Processing of a successful `invoke_model` response (lines 90-97):
read the payload if stream-like, print the header, then print the UTF-8
decoding of bytes (raising `UnicodeDecodeError` on invalid bytes) or
`str(data)` for non-bytes payloads. -/
def processInvoke (bodyVal : Option BodyVal) : List Event × Option PyError :=
  let header : Event := .print .stdout "InvokeModel response:"
  match bodyVal with
  | some (.stream bs) =>
    match utf8DecodeStr bs with
    | some s => ([header, .print .stdout s], none)
    | none => ([header], some (.otherError "UnicodeDecodeError: invalid utf-8"))
  | some (.bytes bs) =>
    match utf8DecodeStr bs with
    | some s => ([header, .print .stdout s], none)
    | none => ([header], some (.otherError "UnicodeDecodeError: invalid utf-8"))
  | some (.pystr s) => ([header, .print .stdout s], none)
  | some .pynone => ([header, .print .stdout "None"], none)
  | some (.otherVal r) => ([header, .print .stdout r], none)
  | none => ([header, .print .stdout "None"], none)

/-- The two exception handlers of the invoke attempt (lines 98-103). -/
def invokeHandler : PyError → List Event
  | .clientError m => [.print .stderr "InvokeModel attempt failed:", .print .stderr m]
  | .otherError m => [.print .stderr "InvokeModel attempt error:", .print .stderr m]

/-- The stdout banner of line 76. -/
def invokeBanner : Event :=
  .print .stdout "\nAttempting bedrock-runtime.invoke_model with Anthropic-style payload ..."

/-- The fallback `invoke_model` attempt (lines 73-103): its events and
whether it returned success (the `return` at line 97 was reached). -/
def invokePhase (w : World) : List Event × Bool :=
  match w.invokeResult with
  | .error e => ([invokeBanner, .callInvokeModel] ++ invokeHandler e, false)
  | .ok bodyVal =>
    match processInvoke bodyVal with
    | (t, none) => ([invokeBanner, .callInvokeModel] ++ t, true)
    | (t, some e) => ([invokeBanner, .callInvokeModel] ++ t ++ invokeHandler e, false)

/-- The failure banner printed to stderr at line 105. -/
def diagBanner : String := "\nAll attempts failed. Diagnostics:"

/-- The fixed remediation checklist printed to stderr at line 112. -/
def checklistText : String :=
  "Checklist: \n- Ensure the ARN is correct and in this region.\n- Confirm IAM permissions: bedrock:InvokeModel and bedrock:Converse on the target inference profile or routed models.\n- Verify that the routed model for the profile supports the chosen API (Converse or Anthropic Messages).\n- Confirm VPC endpoints or network egress allow Bedrock access if using private networking."

/-- The terminal-diagnostics block (lines 105-112): failure banner to
stderr, best-effort caller-identity dump to stdout (any exception from it
swallowed by the bare `except Exception: pass`), checklist to stderr. -/
def diagPhase (sts : Except PyError JValue) (region arn : String) : List Event :=
  [.print .stderr diagBanner] ++
  (match sts with
   | .ok ident =>
     [.callGetCallerIdentity,
      .print .stdout (jsonDumps (.dict
        [("caller", ident), ("region", .str region), ("inference_profile_arn", .str arn)]))]
   | .error _ => [.callGetCallerIdentity]) ++
  [.print .stderr checklistText]

/-- The three error lines printed when no target identifier is configured
(lines 19-21). -/
def missingArnTrace : List Event :=
  [.print .stderr "ERROR: BEDROCK_INFERENCE_PROFILE_ARN env var is not set.",
   .print .stderr "Set it, then re-run. Example:",
   .print .stderr "  export BEDROCK_INFERENCE_PROFILE_ARN=arn:aws:bedrock:us-east-1:123456789012:inference-profile/my-profile"]

/-- The region-fallback warning of lines 24-26: one stderr line when no
ambient region is configured, nothing otherwise. -/
def regionTrace (w : World) : List Event :=
  if (w.ambientRegion.getD "").isEmpty then
    [.print .stderr "WARNING: No AWS region configured in your environment. Falling back to us-east-1."]
  else []

/-- The resolved region: the ambient one, or the fixed default. -/
def regionName (w : World) : String :=
  if (w.ambientRegion.getD "").isEmpty then "us-east-1" else w.ambientRegion.getD ""

/-- The whole `main()` of the script as a function from the stubbed
environment and collaborators to the event trace and process outcome. -/
def mainRun (w : World) : List Event × Outcome :=
  if ((resolveArn w).getD "").isEmpty then
    (missingArnTrace, .exited 2)
  else
    match profilePhase w with
    | (t1, some e) => (regionTrace w ++ t1, .crashed e)
    | (t1, none) =>
      match conversePhase w with
      | (t2, true) => (regionTrace w ++ t1 ++ t2, .exited 0)
      | (t2, false) =>
        match invokePhase w with
        | (t3, true) => (regionTrace w ++ t1 ++ t2 ++ t3, .exited 0)
        | (t3, false) =>
          (regionTrace w ++ t1 ++ t2 ++ t3 ++
             diagPhase w.stsResult (regionName w) ((resolveArn w).getD ""), .exited 1)

/-- Whether an event is an invocation of a remote collaborator (as opposed
to a print). -/
def Event.isRemoteCall : Event → Bool
  | .print _ _ => false
  | _ => true

/-- The remote-call events of a trace, in order. -/
def callsOf (t : List Event) : List Event :=
  t.filter Event.isRemoteCall

/-- Spec-side well-formedness of one content part, as the spec describes
the conversational response: a mapping in which the key "text", when
present, carries a string. -/
def wfPart : JValue → Bool
  | .dict pkvs =>
    match lookup pkvs "text" with
    | some (.str _) => true
    | some _ => false
    | none => true
  | _ => false

/-- Spec-side well-formedness of the content list. -/
def wfParts (ps : List JValue) : Bool := ps.all wfPart

/-- Spec-side description of the extraction: "every text segment from the
message content list", i.e. the string under "text" of each part carrying
one, in order. -/
def textSegments : List JValue → List String
  | [] => []
  | .dict pkvs :: ps =>
    (match lookup pkvs "text" with
     | some (.str s) => s :: textSegments ps
     | _ => textSegments ps)
  | _ :: ps => textSegments ps

/-- A valid inference-profile identifier used in concrete runs. -/
def arnSample : String :=
  "arn:aws:bedrock:us-east-1:123456789012:inference-profile/my-profile"

/-- A well-formed `converse` response with the single text segment
"Hello." (the stub of the testable properties of the spec). -/
def helloResp : JValue :=
  .dict [("output",
    .dict [("message",
      .dict [("content", .list [.dict [("text", .str "Hello.")]])])])]

/-- A stubbed `get_caller_identity` response. -/
def identSample : JValue := .dict [("Account", .str "123456789012")]

/-- The UTF-8 bytes of the JSON text `\x7b"ok":true\x7d`. -/
def okBytes : List Nat := [123, 34, 111, 107, 34, 58, 116, 114, 117, 101, 125]

/-- A baseline stubbed run: ARN and region configured, SDK without
`get_inference_profile`, every collaborator answering. -/
def wBase : World :=
  { envBedrockArn := some arnSample
    envInferenceArn := none
    envPrompt := none
    ambientRegion := some "us-east-1"
    hasGetInferenceProfile := false
    profileResult := .error (.clientError "AccessDeniedException")
    converseResult := .ok helloResp
    invokeResult := .ok (some (.stream okBytes))
    stsResult := .ok identSample }

/-- A run with neither ARN environment variable set. -/
def wNoArn : World :=
  { wBase with envBedrockArn := none, envInferenceArn := none }

/-- A run in which `get_inference_profile` exists and raises a
non-ClientError exception (for example a transport timeout). -/
def wCrash : World :=
  { wBase with
      hasGetInferenceProfile := true
      profileResult := .error (.otherError "ConnectTimeoutError()") }

/-- A run in which both invocation attempts are rejected and the identity
check succeeds, so the terminal-diagnostics block runs in full. -/
def wDiag : World :=
  { wBase with
      converseResult := .error (.clientError "AccessDeniedException")
      invokeResult := .error (.clientError "AccessDeniedException") }

/-- A run in which the converse call is rejected and the fallback returns a
decodable byte payload. -/
def wFallback : World :=
  { wBase with converseResult := .error (.clientError "ValidationException") }

/-- A run in which both calls succeed but both responses blow up during
processing: the converse response has a non-mapping truthy `output`, and
the fallback payload is not valid UTF-8. -/
def wBadShapes : World :=
  { wBase with
      converseResult := .ok (.dict [("output", .str "oops")])
      invokeResult := .ok (some (.bytes [255])) }

/-- A run with both ARN environment variables set to the empty string. -/
def wEmptyEnv : World :=
  { wBase with envBedrockArn := some "", envInferenceArn := some "" }

/-- The serialized caller-identity dump printed in the wDiag run. -/
def identDump : String :=
  jsonDumps (.dict [("caller", identSample), ("region", .str "us-east-1"),
                    ("inference_profile_arn", .str arnSample)])

/-! Helper lemmas about the traces of the individual phases. -/

theorem filter_calls_converseHandler (e : PyError) :
    (converseHandler e).filter Event.isRemoteCall = [] := by
  cases e <;> rfl

theorem filter_calls_invokeHandler (e : PyError) :
    (invokeHandler e).filter Event.isRemoteCall = [] := by
  cases e <;> rfl

theorem filter_calls_processConverse (resp : JValue) :
    (processConverse resp).1.filter Event.isRemoteCall = [] := by
  unfold processConverse
  repeat' split <;> try rfl

theorem filter_calls_processInvoke (bodyVal : Option BodyVal) :
    (processInvoke bodyVal).1.filter Event.isRemoteCall = [] := by
  unfold processInvoke
  repeat' split <;> try rfl

theorem callsOf_profilePhase (w : World) :
    callsOf (profilePhase w).1 =
      if w.hasGetInferenceProfile then [Event.callGetInferenceProfile] else [] := by
  unfold callsOf profilePhase
  repeat' split <;> try rfl

theorem callsOf_conversePhase (w : World) :
    callsOf (conversePhase w).1 = [Event.callConverse] := by
  unfold callsOf conversePhase
  split
  · simp [List.filter_append, filter_calls_converseHandler, List.filter, Event.isRemoteCall,
      converseBanner]
  · rename_i resp heq1
    have hpc := filter_calls_processConverse resp
    split <;> rename_i heq <;> rw [heq] at hpc <;> simp [Event.isRemoteCall] at hpc <;>
      simp [List.filter_append, hpc, filter_calls_converseHandler, List.filter,
        Event.isRemoteCall, converseBanner] <;> exact hpc

theorem callsOf_invokePhase (w : World) :
    callsOf (invokePhase w).1 = [Event.callInvokeModel] := by
  unfold callsOf invokePhase
  split
  · simp [List.filter_append, filter_calls_invokeHandler, List.filter, Event.isRemoteCall,
      invokeBanner]
  · rename_i bodyVal heq1
    have hpc := filter_calls_processInvoke bodyVal
    split <;> rename_i heq <;> rw [heq] at hpc <;> simp [Event.isRemoteCall] at hpc <;>
      simp [List.filter_append, hpc, filter_calls_invokeHandler, List.filter,
        Event.isRemoteCall, invokeBanner] <;> exact hpc

theorem callsOf_diagPhase (sts : Except PyError JValue) (region arn : String) :
    callsOf (diagPhase sts region arn) = [Event.callGetCallerIdentity] := by
  unfold callsOf diagPhase
  split <;> rfl

theorem callsOf_regionTrace (w : World) : callsOf (regionTrace w) = [] := by
  unfold callsOf regionTrace
  split <;> rfl

theorem mem_calls_iff (e : Event) (he : e.isRemoteCall = true) (t : List Event) :
    e ∈ t ↔ e ∈ callsOf t := by
  simp [callsOf, List.mem_filter, he]

theorem count_calls_eq (e : Event) (he : e.isRemoteCall = true) (t : List Event) :
    t.count e = (callsOf t).count e := by
  induction t with
  | nil => rfl
  | cons a t ih =>
    by_cases ha : a.isRemoteCall = true
    · have h1 : callsOf (a :: t) = a :: callsOf t := by
        simp [callsOf, List.filter_cons, ha]
      rw [h1, List.count_cons, List.count_cons, ih]
    · have h1 : callsOf (a :: t) = callsOf t := by
        simp [callsOf, List.filter_cons, ha]
      have hne : (a == e) = false := by
        cases h : a == e
        · rfl
        · rw [eq_of_beq h, he] at ha
          exact absurd rfl ha
      rw [h1, List.count_cons, hne, ih]
      simp

theorem mainRun_missing (w : World) (hA : ((resolveArn w).getD "").isEmpty = true) :
    mainRun w = (missingArnTrace, .exited 2) := by
  unfold mainRun
  simp [hA]

theorem mainRun_crash (w : World) (hA : ((resolveArn w).getD "").isEmpty = false)
    (t1 : List Event) (e : PyError) (hp : profilePhase w = (t1, some e)) :
    mainRun w = (regionTrace w ++ t1, .crashed e) := by
  unfold mainRun
  simp [hA, hp]

theorem mainRun_conv_ok (w : World) (hA : ((resolveArn w).getD "").isEmpty = false)
    (t1 t2 : List Event) (hp : profilePhase w = (t1, none))
    (hc : conversePhase w = (t2, true)) :
    mainRun w = (regionTrace w ++ t1 ++ t2, .exited 0) := by
  unfold mainRun
  simp [hA, hp, hc]

theorem mainRun_invoke_ok (w : World) (hA : ((resolveArn w).getD "").isEmpty = false)
    (t1 t2 t3 : List Event) (hp : profilePhase w = (t1, none))
    (hc : conversePhase w = (t2, false)) (hi : invokePhase w = (t3, true)) :
    mainRun w = (regionTrace w ++ t1 ++ t2 ++ t3, .exited 0) := by
  unfold mainRun
  simp [hA, hp, hc, hi]

theorem mainRun_exhausted (w : World) (hA : ((resolveArn w).getD "").isEmpty = false)
    (t1 t2 t3 : List Event) (hp : profilePhase w = (t1, none))
    (hc : conversePhase w = (t2, false)) (hi : invokePhase w = (t3, false)) :
    mainRun w = (regionTrace w ++ t1 ++ t2 ++ t3 ++
      diagPhase w.stsResult (regionName w) ((resolveArn w).getD ""), .exited 1) := by
  unfold mainRun
  simp [hA, hp, hc, hi]

theorem conversePhase_err (w : World) (e : PyError) (hc : w.converseResult = .error e) :
    conversePhase w = ([converseBanner, .callConverse] ++ converseHandler e, false) := by
  unfold conversePhase
  rw [hc]

theorem conversePhase_ok_fail (w : World) (resp : JValue) (t : List Event) (e : PyError)
    (hc : w.converseResult = .ok resp) (hpr : processConverse resp = (t, some e)) :
    conversePhase w = ([converseBanner, .callConverse] ++ t ++ converseHandler e, false) := by
  unfold conversePhase
  rw [hc]
  simp [hpr]

theorem conversePhase_ok_succ (w : World) (resp : JValue) (t : List Event)
    (hc : w.converseResult = .ok resp) (hpr : processConverse resp = (t, none)) :
    conversePhase w = ([converseBanner, .callConverse] ++ t, true) := by
  unfold conversePhase
  rw [hc]
  simp [hpr]

theorem invokePhase_err (w : World) (e : PyError) (hi : w.invokeResult = .error e) :
    invokePhase w = ([invokeBanner, .callInvokeModel] ++ invokeHandler e, false) := by
  unfold invokePhase
  rw [hi]

theorem invokePhase_ok_fail (w : World) (bodyVal : Option BodyVal) (t : List Event) (e : PyError)
    (hi : w.invokeResult = .ok bodyVal) (hpr : processInvoke bodyVal = (t, some e)) :
    invokePhase w = ([invokeBanner, .callInvokeModel] ++ t ++ invokeHandler e, false) := by
  unfold invokePhase
  rw [hi]
  simp [hpr]

theorem invokePhase_ok_succ (w : World) (bodyVal : Option BodyVal) (t : List Event)
    (hi : w.invokeResult = .ok bodyVal) (hpr : processInvoke bodyVal = (t, none)) :
    invokePhase w = ([invokeBanner, .callInvokeModel] ++ t, true) := by
  unfold invokePhase
  rw [hi]
  simp [hpr]

theorem profilePhase_crash_shape (w : World) (e : PyError)
    (h : (profilePhase w).2 = some e) :
    w.hasGetInferenceProfile = true ∧ ∃ m, e = PyError.otherError m := by
  unfold profilePhase at h
  split at h
  · constructor
    · assumption
    · split at h
      · rename_i prof heq
        split at h
        · simp at h
        · rename_i pe heq2
          simp at h
          subst h
          unfold pyDictGetD at heq2
          split at heq2
          · simp at heq2
          · simp at heq2
            exact ⟨_, heq2.symm⟩
      · simp at h
      · simp at h
        exact ⟨_, h.symm⟩
  · simp at h


theorem allStrs_map_str (ss : List String) : allStrs (ss.map JValue.str) = some ss := by
  induction ss with
  | nil => rfl
  | cons s ss ih => simp [allStrs, ih]

theorem pyJoin_map_str (ss : List String) :
    pyJoin (ss.map JValue.str) = .ok (String.intercalate "\n" ss) := by
  simp [pyJoin, allStrs_map_str]

theorem collectTexts_wf (ps : List JValue) (h : wfParts ps = true) :
    collectTexts ps = .ok ((textSegments ps).map JValue.str) := by
  induction ps with
  | nil => rfl
  | cons p ps ih =>
    rw [wfParts, List.all_cons, Bool.and_eq_true] at h
    obtain ⟨hp, hps⟩ := h
    have ihs := ih hps
    cases p with
    | dict pkvs =>
      cases hl : lookup pkvs "text" with
      | none =>
        simp [collectTexts, pyContains, hl, textSegments, ihs, Except.bind, bind]
      | some v =>
        cases v with
        | str s =>
          simp [collectTexts, pyContains, hl, pySubscript, textSegments, ihs,
            Except.bind, bind, pure, Except.pure]
        | num n => simp [wfPart, hl] at hp
        | bool b => simp [wfPart, hl] at hp
        | null => simp [wfPart, hl] at hp
        | list xs => simp [wfPart, hl] at hp
        | dict kvs2 => simp [wfPart, hl] at hp
    | str s => simp [wfPart] at hp
    | num n => simp [wfPart] at hp
    | bool b => simp [wfPart] at hp
    | null => simp [wfPart] at hp
    | list xs => simp [wfPart] at hp

theorem processConverse_emptyOutput (kvs : List (String × JValue))
    (ho : lookup kvs "output" = some (.dict [])) :
    processConverse (.dict kvs) = ([.print .stdout (jsonDumps (.dict kvs))], none) := by
  unfold processConverse
  simp [pyDictGetD, ho, pyTruthy]

theorem processConverse_wf (kvs okvs mkvs : List (String × JValue)) (parts : List JValue)
    (ho : lookup kvs "output" = some (.dict okvs))
    (hm : lookup okvs "message" = some (.dict mkvs))
    (hcn : lookup mkvs "content" = some (.list parts))
    (hwf : wfParts parts = true) :
    processConverse (.dict kvs) =
      (if (textSegments parts).isEmpty then
         ([.print .stdout "Converse response:", .print .stdout (jsonDumps (.dict kvs))], none)
       else
         ([.print .stdout "Converse response:",
           .print .stdout (String.intercalate "\n" (textSegments parts))], none)) := by
  have hne : okvs.isEmpty = false := by
    cases okvs
    · simp [lookup] at hm
    · rfl
  unfold processConverse
  cases hseg : (textSegments parts).isEmpty with
  | true =>
    simp [pyDictGetD, ho, hm, hcn, pyTruthy, hne, pyIter, collectTexts_wf parts hwf,
      pyJoin_map_str, hseg, List.isEmpty_iff.mp hseg]
  | false =>
    have hnil : textSegments parts ≠ [] := by
      intro h
      rw [h] at hseg
      simp at hseg
    simp [pyDictGetD, ho, hm, hcn, pyTruthy, hne, pyIter, collectTexts_wf parts hwf,
      pyJoin_map_str, hseg, hnil]

/-- C1 counterexample: with the profile-verification collaborator raising a
non-ClientError exception (a transport timeout), the process terminates by
an unhandled exception rather than recovering locally. -/
theorem c1_counterexample :
    (mainRun wCrash).2 = Outcome.crashed (PyError.otherError "ConnectTimeoutError()") := rfl

/-- C1 (amended): every non-ClientError exception raised by the converse,
invoke_model or caller-identity calls is recovered locally, so a run whose
profile-verification block does not raise an uncaught exception always
terminates with an exit code; and the only way the process can crash is a
non-ClientError exception escaping the profile-verification block, which
catches ClientError alone. -/
theorem c1_amended (w : World) :
    ((profilePhase w).2 = none → ∃ n, (mainRun w).2 = Outcome.exited n) ∧
    (∀ e, (mainRun w).2 = Outcome.crashed e →
      w.hasGetInferenceProfile = true ∧ (profilePhase w).2 = some e ∧
        ∃ m, e = PyError.otherError m) := by
  constructor
  · intro hp
    by_cases hA : ((resolveArn w).getD "").isEmpty = true
    · exact ⟨2, by rw [mainRun_missing w hA]⟩
    · have hA2 : ((resolveArn w).getD "").isEmpty = false := by
        cases h : ((resolveArn w).getD "").isEmpty
        · rfl
        · exact absurd h hA
      rcases hpp : profilePhase w with ⟨t1, e2⟩
      rw [hpp] at hp
      simp at hp
      subst hp
      rcases hcc : conversePhase w with ⟨t2, b2⟩
      cases b2
      · rcases hii : invokePhase w with ⟨t3, b3⟩
        cases b3
        · exact ⟨1, by rw [mainRun_exhausted w hA2 t1 t2 t3 hpp hcc hii]⟩
        · exact ⟨0, by rw [mainRun_invoke_ok w hA2 t1 t2 t3 hpp hcc hii]⟩
      · exact ⟨0, by rw [mainRun_conv_ok w hA2 t1 t2 hpp hcc]⟩
  · intro e hcr
    by_cases hA : ((resolveArn w).getD "").isEmpty = true
    · rw [mainRun_missing w hA] at hcr
      simp at hcr
    · have hA2 : ((resolveArn w).getD "").isEmpty = false := by
        cases h : ((resolveArn w).getD "").isEmpty
        · rfl
        · exact absurd h hA
      rcases hpp : profilePhase w with ⟨t1, e2⟩
      cases e2 with
      | some e3 =>
        rw [mainRun_crash w hA2 t1 e3 hpp] at hcr
        simp at hcr
        subst hcr
        have hsh := profilePhase_crash_shape w e3 (by simp [hpp])
        exact ⟨hsh.1, by simp [hpp], hsh.2⟩
      | none =>
        rcases hcc : conversePhase w with ⟨t2, b2⟩
        cases b2
        · rcases hii : invokePhase w with ⟨t3, b3⟩
          cases b3
          · rw [mainRun_exhausted w hA2 t1 t2 t3 hpp hcc hii] at hcr
            simp at hcr
          · rw [mainRun_invoke_ok w hA2 t1 t2 t3 hpp hcc hii] at hcr
            simp at hcr
        · rw [mainRun_conv_ok w hA2 t1 t2 hpp hcc] at hcr
          simp at hcr

/-- C1 amended witness: a concrete run whose profile block raises nothing
uncaught exits with a code. -/
theorem c1_amended_witness : ∃ n, (mainRun wBase).2 = Outcome.exited n :=
  (c1_amended wBase).1 (by rfl)

/-- C2: with no target identifier configured, the program prints exactly
the three stderr error lines naming BEDROCK_INFERENCE_PROFILE_ARN, exits
with code 2, and performs no remote call. -/
theorem c2_missing_arn (w : World)
    (h : ((resolveArn w).getD "").isEmpty = true) :
    mainRun w = (missingArnTrace, Outcome.exited 2) ∧
      ∀ ev ∈ (mainRun w).1, ev.isRemoteCall = false := by
  have hm := mainRun_missing w h
  refine ⟨hm, ?_⟩
  rw [hm]
  intro ev hev
  simp [missingArnTrace] at hev
  rcases hev with h1 | h1 | h1 <;> subst h1 <;> rfl

/-- C2 witness. -/
theorem c2_missing_arn_witness :
    mainRun wNoArn = (missingArnTrace, Outcome.exited 2) ∧
      ∀ ev ∈ (mainRun wNoArn).1, ev.isRemoteCall = false :=
  c2_missing_arn wNoArn (by rfl)

/-- C3: when the conversational call succeeds, the program prints the text
segments of output.message.content joined with newlines (or the serialized
raw response when there are none, or when output is empty/falsy), and exits
with code 0. -/
theorem c3_converse_success (w : World) (kvs okvs : List (String × JValue)) (t1 : List Event)
    (hA : ((resolveArn w).getD "").isEmpty = false)
    (hp : profilePhase w = (t1, none))
    (hc : w.converseResult = .ok (.dict kvs))
    (ho : lookup kvs "output" = some (.dict okvs)) :
    (okvs = [] →
      (mainRun w).2 = Outcome.exited 0 ∧
        Event.print .stdout (jsonDumps (.dict kvs)) ∈ (mainRun w).1) ∧
    (∀ mkvs parts, lookup okvs "message" = some (.dict mkvs) →
      lookup mkvs "content" = some (.list parts) → wfParts parts = true →
      (mainRun w).2 = Outcome.exited 0 ∧
        (if (textSegments parts).isEmpty then
          Event.print .stdout (jsonDumps (.dict kvs)) ∈ (mainRun w).1
        else
          Event.print .stdout (String.intercalate "\n" (textSegments parts)) ∈ (mainRun w).1)) := by
  constructor
  · intro hemp
    subst hemp
    have hpc := processConverse_emptyOutput kvs ho
    have hcp := conversePhase_ok_succ w _ _ hc hpc
    have hm0 := mainRun_conv_ok w hA t1 _ hp hcp
    rw [hm0]
    exact ⟨rfl, by simp⟩
  · intro mkvs parts hm hcn hwf
    have hpc := processConverse_wf kvs okvs mkvs parts ho hm hcn hwf
    cases hseg : (textSegments parts).isEmpty with
    | true =>
      rw [hseg] at hpc
      simp only [if_true, reduceIte] at hpc
      have hcp := conversePhase_ok_succ w _ _ hc hpc
      have hm0 := mainRun_conv_ok w hA t1 _ hp hcp
      rw [hm0]
      simp
    | false =>
      rw [hseg] at hpc
      simp only [Bool.false_eq_true, if_false, reduceIte] at hpc
      have hcp := conversePhase_ok_succ w _ _ hc hpc
      have hm0 := mainRun_conv_ok w hA t1 _ hp hcp
      rw [hm0]
      simp

/-- C3 witness: the stubbed response with the single text segment
"Hello." makes the run print exactly that line and exit 0. -/
theorem c3_converse_success_witness :
    (mainRun wBase).2 = Outcome.exited 0 ∧
      Event.print .stdout "Hello." ∈ (mainRun wBase).1 :=
  (c3_converse_success wBase _ _ _ rfl rfl rfl rfl).2
    [("content", .list [.dict [("text", .str "Hello.")]])]
    [.dict [("text", .str "Hello.")]] rfl rfl rfl

/-- C5: when both invocation attempts raise, the program exits with code 1
and the fixed remediation checklist is printed. -/
theorem c5_exhaustion (w : World) (e₁ e₂ : PyError) (t1 : List Event)
    (hA : ((resolveArn w).getD "").isEmpty = false)
    (hp : profilePhase w = (t1, none))
    (hc : w.converseResult = .error e₁)
    (hi : w.invokeResult = .error e₂) :
    (mainRun w).2 = Outcome.exited 1 ∧
      Event.print .stderr checklistText ∈ (mainRun w).1 := by
  have hcp := conversePhase_err w e₁ hc
  have hip := invokePhase_err w e₂ hi
  have hm := mainRun_exhausted w hA t1 _ _ hp hcp hip
  rw [hm]
  refine ⟨rfl, ?_⟩
  have hd : Event.print .stderr checklistText ∈
      diagPhase w.stsResult (regionName w) ((resolveArn w).getD "") := by
    unfold diagPhase
    rcases w.stsResult with v | e <;> simp
  exact List.mem_append_right _ hd

/-- C5 witness. -/
theorem c5_exhaustion_witness :
    (mainRun wDiag).2 = Outcome.exited 1 ∧
      Event.print .stderr checklistText ∈ (mainRun wDiag).1 :=
  c5_exhaustion wDiag (.clientError "AccessDeniedException")
    (.clientError "AccessDeniedException") _ (by rfl) (by rfl) (by rfl) (by rfl)

/-- C8: the program is a pure function of its configuration and stubbed
collaborators: two runs whose nine inputs agree produce the same trace on
both streams and the same outcome. -/
theorem c8_deterministic (w₁ w₂ : World)
    (h1 : w₁.envBedrockArn = w₂.envBedrockArn)
    (h2 : w₁.envInferenceArn = w₂.envInferenceArn)
    (h3 : w₁.envPrompt = w₂.envPrompt)
    (h4 : w₁.ambientRegion = w₂.ambientRegion)
    (h5 : w₁.hasGetInferenceProfile = w₂.hasGetInferenceProfile)
    (h6 : w₁.profileResult = w₂.profileResult)
    (h7 : w₁.converseResult = w₂.converseResult)
    (h8 : w₁.invokeResult = w₂.invokeResult)
    (h9 : w₁.stsResult = w₂.stsResult) :
    mainRun w₁ = mainRun w₂ := by
  cases w₁
  cases w₂
  simp_all

/-- C8 witness. -/
theorem c8_deterministic_witness : mainRun wBase = mainRun wBase :=
  c8_deterministic wBase wBase rfl rfl rfl rfl rfl rfl rfl rfl rfl

/-- C9: an environment variable set to the empty string behaves as an
unset one: an empty BEDROCK_INFERENCE_PROFILE_ARN defers to
INFERENCE_PROFILE_ARN, and when that one is empty too the program exits
with code 2 exactly as with nothing set. -/
theorem c9_empty_env (w : World) (hB : w.envBedrockArn = some "") :
    mainRun w = mainRun { w with envBedrockArn := none } ∧
      (w.envInferenceArn = some "" → (mainRun w).2 = Outcome.exited 2) := by
  have he : "".isEmpty = true := rfl
  obtain ⟨a1, a2, a3, a4, a5, a6, a7, a8, a9⟩ := w
  simp only at hB
  subst hB
  constructor
  · show mainRun ⟨some "", a2, a3, a4, a5, a6, a7, a8, a9⟩ =
        mainRun ⟨none, a2, a3, a4, a5, a6, a7, a8, a9⟩
    have h1 : resolveArn ⟨some "", a2, a3, a4, a5, a6, a7, a8, a9⟩ =
        resolveArn ⟨none, a2, a3, a4, a5, a6, a7, a8, a9⟩ := by
      simp [resolveArn, pyOr, he]
    unfold mainRun
    rw [h1]
    rfl
  · intro hI
    simp only at hI
    subst hI
    have h2 : ((resolveArn (⟨some "", some "", a3, a4, a5, a6, a7, a8, a9⟩ : World)).getD
        "").isEmpty = true := by
      simp [resolveArn, pyOr, he]
    rw [mainRun_missing _ h2]

/-- C9 witness: a run with both ARN variables set to the empty string. -/
theorem c9_empty_env_witness :
    mainRun wEmptyEnv = mainRun { wEmptyEnv with envBedrockArn := none } ∧
      (mainRun wEmptyEnv).2 = Outcome.exited 2 :=
  ⟨(c9_empty_env wEmptyEnv rfl).1, (c9_empty_env wEmptyEnv rfl).2 rfl⟩

theorem callsOf_append (a b : List Event) : callsOf (a ++ b) = callsOf a ++ callsOf b := by
  simp [callsOf, List.filter_append]

theorem banner_not_regionTrace (w : World) :
    Event.print .stderr diagBanner ∉ regionTrace w := by
  unfold regionTrace
  split <;> decide

/-- C4: when the conversational attempt is rejected and the fallback
returns a UTF-8-decodable byte payload, the program exits 0, prints the
decoded text verbatim and never prints the terminal-diagnostics banner. -/
theorem c4_fallback_success (w : World) (m s : String) (bs : List Nat) (t1 : List Event)
    (hA : ((resolveArn w).getD "").isEmpty = false)
    (hp : profilePhase w = (t1, none))
    (hpb : Event.print .stderr diagBanner ∉ t1)
    (hc : w.converseResult = .error (.clientError m))
    (hmb : m ≠ diagBanner)
    (hi : w.invokeResult = .ok (some (.stream bs)))
    (hd : utf8DecodeStr bs = some s) :
    (mainRun w).2 = Outcome.exited 0 ∧
      Event.print .stdout s ∈ (mainRun w).1 ∧
      Event.print .stderr diagBanner ∉ (mainRun w).1 := by
  have hcp := conversePhase_err w _ hc
  have hproc : processInvoke (some (.stream bs)) =
      ([.print .stdout "InvokeModel response:", .print .stdout s], none) := by
    show (match utf8DecodeStr bs with
        | some s => ([Event.print OutStream.stdout "InvokeModel response:",
            Event.print OutStream.stdout s], (none : Option PyError))
        | none => ([Event.print OutStream.stdout "InvokeModel response:"],
            some (PyError.otherError "UnicodeDecodeError: invalid utf-8"))) =
      ([Event.print OutStream.stdout "InvokeModel response:",
        Event.print OutStream.stdout s], none)
    rw [hd]
  have hip := invokePhase_ok_succ w _ _ hi hproc
  have hm0 := mainRun_invoke_ok w hA t1 _ _ hp hcp hip
  rw [hm0]
  refine ⟨rfl, by simp, ?_⟩
  have hpb2 : Event.print OutStream.stderr "\nAll attempts failed. Diagnostics:" ∉ t1 := hpb
  have hrt2 : Event.print OutStream.stderr "\nAll attempts failed. Diagnostics:" ∉
      regionTrace w := banner_not_regionTrace w
  have hmb2 : ("\nAll attempts failed. Diagnostics:" = m) → False := fun h => hmb h.symm
  simp [converseHandler, converseBanner, invokeBanner, diagBanner, hpb2, hrt2, hmb2]
  exact hmb2

/-- C4 witness: a rejected converse call followed by a decodable JSON byte
payload from invoke_model. -/
theorem c4_fallback_success_witness :
    (mainRun wFallback).2 = Outcome.exited 0 ∧
      Event.print .stdout "\x7b\x22ok\x22:true\x7d" ∈ (mainRun wFallback).1 ∧
      Event.print .stderr diagBanner ∉ (mainRun wFallback).1 :=
  c4_fallback_success wFallback "ValidationException" _ okBytes _
    rfl rfl (by decide) rfl (by decide) rfl rfl

/-- C6 counterexample: in a run that reaches terminal diagnostics with a
successful identity check, the caller-identity dump is emitted to standard
output from within the terminal-diagnostics phase, so not everything in
that phase goes to the diagnostic stream. -/
theorem c6_counterexample :
    mainRun wDiag =
      ([Event.print .stdout
          "SDK does not expose get_inference_profile; skipping profile pre-check.",
        converseBanner, Event.callConverse,
        Event.print .stderr "Converse attempt failed:",
        Event.print .stderr "AccessDeniedException",
        invokeBanner, Event.callInvokeModel,
        Event.print .stderr "InvokeModel attempt failed:",
        Event.print .stderr "AccessDeniedException"] ++
        diagPhase wDiag.stsResult "us-east-1" arnSample,
       Outcome.exited 1) ∧
    Event.print OutStream.stdout identDump ∈
      diagPhase wDiag.stsResult "us-east-1" arnSample := by
  constructor
  · rfl
  · simp [diagPhase, wDiag, wBase, identDump]

/-- C6 (amended): the terminal-diagnostics block prints the failure banner
and the checklist to the diagnostic stream, and its only standard-output
emission is the best-effort caller-identity dump, present exactly when the
identity call succeeds. -/
theorem c6_streams_amended (sts : Except PyError JValue) (region arn : String) :
    Event.print .stderr diagBanner ∈ diagPhase sts region arn ∧
    Event.print .stderr checklistText ∈ diagPhase sts region arn ∧
    ∀ ev ∈ diagPhase sts region arn,
      ev = Event.print .stderr diagBanner ∨
      ev = Event.print .stderr checklistText ∨
      ev = Event.callGetCallerIdentity ∨
      ∃ ident, sts = .ok ident ∧
        ev = Event.print .stdout (jsonDumps (.dict
          [("caller", ident), ("region", .str region),
           ("inference_profile_arn", .str arn)])) := by
  rcases sts with e | ident
  · refine ⟨by simp [diagPhase], by simp [diagPhase], ?_⟩
    intro ev hev
    simp [diagPhase] at hev
    rcases hev with h | h | h <;> simp [h]
  · refine ⟨by simp [diagPhase], by simp [diagPhase], ?_⟩
    intro ev hev
    simp [diagPhase] at hev
    rcases hev with h | h | h | h
    · simp [h]
    · simp [h]
    · subst h
      right
      right
      right
      exact ⟨ident, rfl, rfl⟩
    · simp [h]

/-- C6 amended witness. -/
theorem c6_streams_amended_witness :
    Event.print .stderr diagBanner ∈
      diagPhase (Except.ok identSample) "us-east-1" arnSample :=
  (c6_streams_amended (Except.ok identSample) "us-east-1" arnSample).1

/-- C10: an exception raised while processing a successful response is
caught by the generic handler of that attempt and the run proceeds exactly
as if the attempt had failed: to the fallback attempt, and on to terminal
diagnostics and exit code 1 when the fallback processing raises too. -/
theorem c10_processing_errors (w : World) (resp : JValue) (bodyVal : Option BodyVal)
    (e₁ e₂ : PyError) (t1 tc ti : List Event)
    (hA : ((resolveArn w).getD "").isEmpty = false)
    (hp : profilePhase w = (t1, none))
    (hc : w.converseResult = .ok resp)
    (hce : processConverse resp = (tc, some e₁))
    (hi : w.invokeResult = .ok bodyVal)
    (hie : processInvoke bodyVal = (ti, some e₂)) :
    (conversePhase w).2 = false ∧ (invokePhase w).2 = false ∧
      Event.callInvokeModel ∈ (mainRun w).1 ∧
      (mainRun w).2 = Outcome.exited 1 ∧
      Event.print .stderr checklistText ∈ (mainRun w).1 := by
  have hcp := conversePhase_ok_fail w resp tc e₁ hc hce
  have hip := invokePhase_ok_fail w bodyVal ti e₂ hi hie
  have hm0 := mainRun_exhausted w hA t1 _ _ hp hcp hip
  refine ⟨by rw [hcp], by rw [hip], ?_, by rw [hm0], ?_⟩
  · rw [hm0]
    simp
  · rw [hm0]
    have hd : Event.print .stderr checklistText ∈
        diagPhase w.stsResult (regionName w) ((resolveArn w).getD "") := by
      unfold diagPhase
      rcases w.stsResult with v | e <;> simp
    exact List.mem_append_right _ hd

/-- C10 witness: a truthy non-mapping `output` in the converse response and
an undecodable fallback payload. -/
theorem c10_processing_errors_witness :
    (conversePhase wBadShapes).2 = false ∧ (invokePhase wBadShapes).2 = false ∧
      Event.callInvokeModel ∈ (mainRun wBadShapes).1 ∧
      (mainRun wBadShapes).2 = Outcome.exited 1 ∧
      Event.print .stderr checklistText ∈ (mainRun wBadShapes).1 :=
  c10_processing_errors wBadShapes _ _ _ _ _ _ _ rfl rfl rfl rfl rfl rfl

/-- C7: each remote strategy is attempted at most once and in a fixed
order: the profile pre-check and the two invocations each occur at most
once in any trace, invoke_model occurs only after a converse attempt that
did not return success, and exit code 1 (terminal diagnostics) occurs only
when both attempts failed. -/
theorem c7_attempt_order (w : World) :
    (mainRun w).1.count Event.callConverse ≤ 1 ∧
    (mainRun w).1.count Event.callInvokeModel ≤ 1 ∧
    (mainRun w).1.count Event.callGetInferenceProfile ≤ 1 ∧
    (Event.callInvokeModel ∈ (mainRun w).1 →
      Event.callConverse ∈ (mainRun w).1 ∧ (conversePhase w).2 = false) ∧
    ((mainRun w).2 = Outcome.exited 1 →
      (conversePhase w).2 = false ∧ (invokePhase w).2 = false) := by
  by_cases hA : ((resolveArn w).getD "").isEmpty = true
  · have hT := mainRun_missing w hA
    have hCS : callsOf (mainRun w).1 = [] := by
      rw [hT]
      rfl
    refine ⟨?_, ?_, ?_, ?_, ?_⟩
    · rw [count_calls_eq Event.callConverse rfl, hCS]
      decide
    · rw [count_calls_eq Event.callInvokeModel rfl, hCS]
      decide
    · rw [count_calls_eq Event.callGetInferenceProfile rfl, hCS]
      decide
    · intro hmem
      rw [mem_calls_iff Event.callInvokeModel rfl, hCS] at hmem
      simp at hmem
    · intro hx
      rw [hT] at hx
      simp at hx
  · have hA2 : ((resolveArn w).getD "").isEmpty = false := by
      cases h : ((resolveArn w).getD "").isEmpty
      · rfl
      · exact absurd h hA
    rcases hpp : profilePhase w with ⟨t1, e2⟩
    have hw1 : callsOf t1 =
        if w.hasGetInferenceProfile then [Event.callGetInferenceProfile] else [] := by
      have h0 := callsOf_profilePhase w
      rw [hpp] at h0
      simpa using h0
    cases e2 with
    | some e3 =>
      have hT := mainRun_crash w hA2 t1 e3 hpp
      have hCS : callsOf (mainRun w).1 = callsOf t1 := by
        rw [hT]
        simp [callsOf_append, callsOf_regionTrace]
      refine ⟨?_, ?_, ?_, ?_, ?_⟩
      · rw [count_calls_eq Event.callConverse rfl, hCS, hw1]
        cases w.hasGetInferenceProfile <;> decide
      · rw [count_calls_eq Event.callInvokeModel rfl, hCS, hw1]
        cases w.hasGetInferenceProfile <;> decide
      · rw [count_calls_eq Event.callGetInferenceProfile rfl, hCS, hw1]
        cases w.hasGetInferenceProfile <;> decide
      · intro hmem
        rw [mem_calls_iff Event.callInvokeModel rfl, hCS, hw1] at hmem
        cases w.hasGetInferenceProfile <;> simp at hmem
      · intro hx
        rw [hT] at hx
        simp at hx
    | none =>
      rcases hcc : conversePhase w with ⟨t2, b2⟩
      have hw2 : callsOf t2 = [Event.callConverse] := by
        have h0 := callsOf_conversePhase w
        rw [hcc] at h0
        simpa using h0
      cases b2 with
      | true =>
        have hT := mainRun_conv_ok w hA2 t1 t2 hpp hcc
        have hCS : callsOf (mainRun w).1 = callsOf t1 ++ [Event.callConverse] := by
          rw [hT]
          simp [callsOf_append, callsOf_regionTrace, hw2]
        refine ⟨?_, ?_, ?_, ?_, ?_⟩
        · rw [count_calls_eq Event.callConverse rfl, hCS, hw1]
          cases w.hasGetInferenceProfile <;> decide
        · rw [count_calls_eq Event.callInvokeModel rfl, hCS, hw1]
          cases w.hasGetInferenceProfile <;> decide
        · rw [count_calls_eq Event.callGetInferenceProfile rfl, hCS, hw1]
          cases w.hasGetInferenceProfile <;> decide
        · intro hmem
          rw [mem_calls_iff Event.callInvokeModel rfl, hCS, hw1] at hmem
          cases w.hasGetInferenceProfile <;> simp at hmem
        · intro hx
          rw [hT] at hx
          simp at hx
      | false =>
        rcases hii : invokePhase w with ⟨t3, b3⟩
        have hw3 : callsOf t3 = [Event.callInvokeModel] := by
          have h0 := callsOf_invokePhase w
          rw [hii] at h0
          simpa using h0
        cases b3 with
        | true =>
          have hT := mainRun_invoke_ok w hA2 t1 t2 t3 hpp hcc hii
          have hCS : callsOf (mainRun w).1 =
              callsOf t1 ++ [Event.callConverse, Event.callInvokeModel] := by
            rw [hT]
            simp [callsOf_append, callsOf_regionTrace, hw2, hw3]
          refine ⟨?_, ?_, ?_, ?_, ?_⟩
          · rw [count_calls_eq Event.callConverse rfl, hCS, hw1]
            cases w.hasGetInferenceProfile <;> decide
          · rw [count_calls_eq Event.callInvokeModel rfl, hCS, hw1]
            cases w.hasGetInferenceProfile <;> decide
          · rw [count_calls_eq Event.callGetInferenceProfile rfl, hCS, hw1]
            cases w.hasGetInferenceProfile <;> decide
          · intro hmem
            refine ⟨?_, rfl⟩
            rw [mem_calls_iff Event.callConverse rfl, hCS]
            simp
          · intro hx
            rw [hT] at hx
            simp at hx
        | false =>
          have hT := mainRun_exhausted w hA2 t1 t2 t3 hpp hcc hii
          have hCS : callsOf (mainRun w).1 =
              callsOf t1 ++ [Event.callConverse, Event.callInvokeModel,
                Event.callGetCallerIdentity] := by
            rw [hT]
            simp [callsOf_append, callsOf_regionTrace, hw2, hw3, callsOf_diagPhase]
          refine ⟨?_, ?_, ?_, ?_, ?_⟩
          · rw [count_calls_eq Event.callConverse rfl, hCS, hw1]
            cases w.hasGetInferenceProfile <;> decide
          · rw [count_calls_eq Event.callInvokeModel rfl, hCS, hw1]
            cases w.hasGetInferenceProfile <;> decide
          · rw [count_calls_eq Event.callGetInferenceProfile rfl, hCS, hw1]
            cases w.hasGetInferenceProfile <;> decide
          · intro hmem
            refine ⟨?_, rfl⟩
            rw [mem_calls_iff Event.callConverse rfl, hCS]
            simp
          · intro hx
            exact ⟨rfl, rfl⟩

/-- C7 witness. -/
theorem c7_attempt_order_witness :
    (mainRun wBase).1.count Event.callConverse ≤ 1 :=
  (c7_attempt_order wBase).1

end Bedrock
